import Mathlib

set_option maxHeartbeats 1000000

/-!
Verification of the voice-session correlation and skill-orchestration layer:
shallow embedding of the webhook argument extraction, the response envelope
discipline, the session-context store, the site entity resolver, the update
extraction fallback, and the skill/assistant registry setup protocol.
-/

/-- JSON-like values, modelling the Python dicts/lists/scalars that flow
through the webhook handlers.  Objects are association lists with unique keys
(Python dicts). -/
inductive JValue where
  | null : JValue
  | bool (b : Bool) : JValue
  | str (s : String) : JValue
  | num (n : Int) : JValue
  | arr (xs : List JValue) : JValue
  | obj (fields : List (String × JValue)) : JValue

/-- Python truthiness of a JSON value (`bool(v)`). -/
def JValue.truthy : JValue → Bool
  | .null => false
  | .bool b => b
  | .str s => s != ""
  | .num n => n != 0
  | .arr xs => !xs.isEmpty
  | .obj fs => !fs.isEmpty

/-- Key lookup in a JSON object field list (Python dict lookup). -/
def jLookup (key : String) (fields : List (String × JValue)) : Option JValue :=
  List.lookup key fields

/-- Whether a character list starts with the given character list. -/
def isPrefixB : List Char → List Char → Bool
  | [], _ => true
  | _ :: _, [] => false
  | a :: as, b :: bs => a = b && isPrefixB as bs

/-- Whether `needle` occurs as a contiguous run inside `hay`
(Python `needle in hay` on strings). -/
def containsSubB (hay needle : List Char) : Bool :=
  match hay with
  | [] => isPrefixB needle []
  | _ :: t => isPrefixB needle hay || containsSubB t needle

/-- Python substring test `needle in hay`. -/
def strContains (hay needle : String) : Bool :=
  containsSubB hay.toList needle.toList

/--
Model of `extract_vapi_args` (src/app/vapi_utils.py).  Input is the webhook
request dict; output is `(tool_call_id, arguments)`.  The Python function
wraps its body in try/except and returns whatever has been assigned when an
exception fires (`tool_call_id` starts as "unknown", `args` as `{}`), so the
model spells out every branch including the ones reached through a caught
TypeError/AttributeError:
 * request has a dict `message` with a key `toolCalls`:
   - a non-empty list: take the first element; a dict gives
     `(get "id" "unknown", function.arguments or {})`; any non-dict first
     element raises on `.get` and is caught, giving `("unknown", {})`;
   - an empty list or any non-list value: no assignment happens (or the
     indexing raises and is caught), giving `("unknown", {})`;
 * `message` present but not a dict: Python `"toolCalls" in m` is a
   substring/membership test for str/list (then the subscript raises, caught,
   giving `("unknown", {})` when it succeeds, else the fallback branch) and
   raises immediately for other types (caught, `("unknown", {})`);
 * otherwise the fallback branch returns the whole request as the arguments.
-/
def extract_vapi_args (request : List (String × JValue)) : JValue × JValue :=
  match jLookup "message" request with
  | some (JValue.obj mf) =>
    match jLookup "toolCalls" mf with
    | some (JValue.arr (t :: _)) =>
      match t with
      | JValue.obj tf =>
        let tcid := (jLookup "id" tf).getD (JValue.str "unknown")
        let args :=
          match jLookup "function" tf with
          | some (JValue.obj ff) => (jLookup "arguments" ff).getD (JValue.obj [])
          | _ => JValue.obj []
        (tcid, args)
      | _ => (JValue.str "unknown", JValue.obj [])
    | some (JValue.arr []) => (JValue.str "unknown", JValue.obj [])
    | some _ => (JValue.str "unknown", JValue.obj [])
    | none => (JValue.str "unknown", JValue.obj request)
  | some (JValue.str s) =>
    if strContains s "toolCalls" then (JValue.str "unknown", JValue.obj [])
    else (JValue.str "unknown", JValue.obj request)
  | some (JValue.arr xs) =>
    if xs.any (fun x => match x with | JValue.str s => s = "toolCalls" | _ => false) then
      (JValue.str "unknown", JValue.obj [])
    else (JValue.str "unknown", JValue.obj request)
  | some _ => (JValue.str "unknown", JValue.obj [])
  | none => (JValue.str "unknown", JValue.obj request)

example :
    extract_vapi_args [("message", JValue.obj [("toolCalls", JValue.arr
      [JValue.obj [("id", JValue.str "tc1"),
        ("function", JValue.obj [("arguments", JValue.obj [("a", JValue.num 1)])])],
       JValue.obj [("id", JValue.str "tc2")]])])] =
    (JValue.str "tc1", JValue.obj [("a", JValue.num 1)]) := rfl

example :
    extract_vapi_args [("foo", JValue.num 3)] =
    (JValue.str "unknown", JValue.obj [("foo", JValue.num 3)]) := rfl

/-- A webhook request whose `message.toolCalls` is the given list; used to
state properties of the extraction helper. -/
def mkReq (tc : List JValue) : List (String × JValue) :=
  [("message", JValue.obj [("toolCalls", JValue.arr tc)])]

/-- Outcome of the argument-extraction portion of the `vapi_tool` wrapper:
either the extracted `(tool_call_id, arguments)`, or an exception escaping to
the wrapper's outer `except` clause with the value `tool_call_id` held at the
moment the exception fired. -/
inductive WExtract where
  | ok (tcid : JValue) (args : JValue)
  | exn (tcid : JValue) (msg : String)

/--
Model of the inline extraction in the `vapi_tool` decorator
(src/app/vapi_utils.py lines 13-30).  Identical dictionary walking to
`extract_vapi_args`, but here exceptions are NOT caught locally: they
propagate to the decorator's outer `except`, which still sees the
`tool_call_id` assigned so far (initially "unknown").
-/
def vapiToolExtract (request : List (String × JValue)) : WExtract :=
  match jLookup "message" request with
  | some (JValue.obj mf) =>
    match jLookup "toolCalls" mf with
    | some (JValue.arr (t :: _)) =>
      match t with
      | JValue.obj tf =>
        let tcid := (jLookup "id" tf).getD (JValue.str "unknown")
        match jLookup "function" tf with
        | some (JValue.obj ff) =>
          WExtract.ok tcid ((jLookup "arguments" ff).getD (JValue.obj []))
        | some (JValue.str s) =>
          if strContains s "arguments" then WExtract.exn tcid "TypeError"
          else WExtract.ok tcid (JValue.obj [])
        | some (JValue.arr xs) =>
          if xs.any (fun x => match x with | JValue.str s => s = "arguments" | _ => false) then
            WExtract.exn tcid "TypeError"
          else WExtract.ok tcid (JValue.obj [])
        | some _ => WExtract.exn tcid "TypeError"
        | none => WExtract.ok tcid (JValue.obj [])
      | _ => WExtract.exn (JValue.str "unknown") "AttributeError"
    | some (JValue.arr []) => WExtract.ok (JValue.str "unknown") (JValue.obj [])
    | some (JValue.str s) =>
      if s = "" then WExtract.ok (JValue.str "unknown") (JValue.obj [])
      else WExtract.exn (JValue.str "unknown") "AttributeError"
    | some (JValue.obj gs) =>
      if gs.isEmpty then WExtract.ok (JValue.str "unknown") (JValue.obj [])
      else WExtract.exn (JValue.str "unknown") "KeyError"
    | some _ => WExtract.exn (JValue.str "unknown") "TypeError"
    | none => WExtract.ok (JValue.str "unknown") (JValue.obj request)
  | some (JValue.str s) =>
    if strContains s "toolCalls" then WExtract.exn (JValue.str "unknown") "TypeError"
    else WExtract.ok (JValue.str "unknown") (JValue.obj request)
  | some (JValue.arr xs) =>
    if xs.any (fun x => match x with | JValue.str s => s = "toolCalls" | _ => false) then
      WExtract.exn (JValue.str "unknown") "TypeError"
    else WExtract.ok (JValue.str "unknown") (JValue.obj request)
  | some _ => WExtract.exn (JValue.str "unknown") "TypeError"
  | none => WExtract.ok (JValue.str "unknown") (JValue.obj request)

/--
Model of the `vapi_tool` decorator (src/app/vapi_utils.py lines 7-61).  The
wrapped handler `f` is a fallible function from the extracted arguments to a
result JSON (`Except` error = a raised Python exception rendered by
`str(e)`).  Every path — extraction failure, handler exception, handler
success — produces the VAPI response envelope literal.
-/
def vapi_tool (fname : String) (f : JValue → Except String JValue)
    (request : List (String × JValue)) : JValue :=
  match vapiToolExtract request with
  | WExtract.exn tcid msg =>
    JValue.obj [("results", JValue.arr [JValue.obj [("toolCallId", tcid),
      ("result", JValue.obj [("success", JValue.bool false),
        ("error", JValue.str msg),
        ("message", JValue.str ("Error in " ++ fname ++ ": " ++ msg))])]])]
  | WExtract.ok tcid args =>
    match f args with
    | Except.ok result =>
      JValue.obj [("results", JValue.arr [JValue.obj [("toolCallId", tcid),
        ("result", result)]])]
    | Except.error e =>
      JValue.obj [("results", JValue.arr [JValue.obj [("toolCallId", tcid),
        ("result", JValue.obj [("success", JValue.bool false),
          ("error", JValue.str e),
          ("message", JValue.str ("Error in " ++ fname ++ ": " ++ e))])]])]

/-- C10: The webhook argument-extraction helper is total (it is a total
function of the request dictionary) and first-match-only: with a non-empty
`message.toolCalls` array it returns the id and `function.arguments` of the
first tool call only (later tool calls are ignored; a missing id yields
"unknown", missing arguments yield the empty map); when the `toolCalls`
shape is absent entirely (no `message` key, or a `message` dict without
`toolCalls`) it returns "unknown" with the whole request dictionary as the
arguments map. -/
theorem extract_vapi_args_spec :
    (∀ (t : JValue) (rest rest' : List JValue),
      extract_vapi_args (mkReq (t :: rest)) = extract_vapi_args (mkReq (t :: rest'))) ∧
    (∀ (tf : List (String × JValue)) (rest : List JValue),
      (jLookup "id" tf = none →
        (extract_vapi_args (mkReq (JValue.obj tf :: rest))).1 = JValue.str "unknown") ∧
      (∀ v, jLookup "id" tf = some v →
        (extract_vapi_args (mkReq (JValue.obj tf :: rest))).1 = v) ∧
      (jLookup "function" tf = none →
        (extract_vapi_args (mkReq (JValue.obj tf :: rest))).2 = JValue.obj []) ∧
      (∀ ff a, jLookup "function" tf = some (JValue.obj ff) →
        jLookup "arguments" ff = some a →
        (extract_vapi_args (mkReq (JValue.obj tf :: rest))).2 = a)) ∧
    (∀ req : List (String × JValue), jLookup "message" req = none →
      extract_vapi_args req = (JValue.str "unknown", JValue.obj req)) ∧
    (∀ (req : List (String × JValue)) (mf : List (String × JValue)),
      jLookup "message" req = some (JValue.obj mf) →
      jLookup "toolCalls" mf = none →
      extract_vapi_args req = (JValue.str "unknown", JValue.obj req)) := by
  refine ⟨?_, ?_, ?_, ?_⟩
  · intro t rest rest'
    cases t <;> rfl
  · intro tf rest
    refine ⟨?_, ?_, ?_, ?_⟩
    · intro h
      unfold jLookup at h
      simp [extract_vapi_args, mkReq, jLookup, List.lookup, h]
    · intro v h
      unfold jLookup at h
      simp [extract_vapi_args, mkReq, jLookup, List.lookup, h]
    · intro h
      unfold jLookup at h
      simp [extract_vapi_args, mkReq, jLookup, List.lookup, h]
    · intro ff a h1 h2
      unfold jLookup at h1 h2
      simp [extract_vapi_args, mkReq, jLookup, List.lookup, h1, h2]
  · intro req h
    simp [extract_vapi_args, h]
  · intro req mf h1 h2
    simp [extract_vapi_args, h1, h2]

/-- Closed witness for C10: the extraction theorem applied at concrete
requests. -/
theorem extract_vapi_args_spec_witness :
    (extract_vapi_args (mkReq [JValue.obj [("id", JValue.str "tc-1"),
        ("function", JValue.obj [("arguments", JValue.obj [("k", JValue.num 2)])])]])).2 =
      JValue.obj [("k", JValue.num 2)] ∧
    extract_vapi_args [("foo", JValue.num 3)] =
      (JValue.str "unknown", JValue.obj [("foo", JValue.num 3)]) := by
  constructor
  · exact (extract_vapi_args_spec.2.1 _ []).2.2.2 _ _ rfl rfl
  · exact extract_vapi_args_spec.2.2.1 [("foo", JValue.num 3)] rfl

/-- A tenant-scoped site candidate as fetched from the entity store
(`select id,name,identifier,address`). -/
structure Site where
  id : String
  name : String
  identifier : Option String
  address : Option String

/-- The session context dict returned by `get_session_context_by_call_id`. -/
structure SessionContext where
  tenant_id : String
  user_id : String
  caller_phone : String
  user_name : Option String
  tenant_name : Option String

/-- Python `None`-or-string rendered into JSON. -/
def optJ : Option String → JValue
  | some s => JValue.str s
  | none => JValue.null

/-- Outcome of the completion-service call for site matching: non-2xx HTTP
status, a 200 whose content is not valid JSON, or a parsed JSON object. -/
inductive AIOutcome where
  | httpError
  | badJson
  | parsed (m : List (String × JValue))

/-- Python `v == site_id_string` where `v` is the JSON value the completion
service returned for `site_id`: equal only when `v` is that exact string. -/
def jStrEq (v : JValue) (s : String) : Bool :=
  match v with
  | JValue.str t => t = s
  | _ => false

/-- ASCII whitespace, the characters Python `str.strip()` removes (the
model restricts to ASCII input). -/
def isSpaceB (c : Char) : Bool :=
  c == ' ' || c == '\t' || c == '\n' || c == '\r' || c == '\x0b' || c == '\x0c'

/-- Python `s.strip()`: drop leading and trailing whitespace. -/
def pyStrip (s : String) : String :=
  String.mk (((s.toList.dropWhile isSpaceB).reverse.dropWhile isSpaceB).reverse)

/--
Model of lines 78-83 of `identify_site_for_update`: reading
`request["message"]["call"]["id"]`.  The value only seeds the session lookup
(an oracle here), but the subscripting can raise (caught by the handler's
outer `except`), so the model records success or the escaping exception.
-/
def callIdExtract (request : List (String × JValue)) : Except String Unit :=
  match jLookup "message" request with
  | some (JValue.obj mf) =>
    match jLookup "call" mf with
    | some (JValue.obj cf) =>
      if (jLookup "id" cf).isSome then Except.ok () else Except.error "KeyError"
    | some _ => Except.error "TypeError"
    | none => Except.ok ()
  | some (JValue.str s) =>
    if strContains s "call" then Except.error "TypeError" else Except.ok ()
  | some (JValue.arr xs) =>
    if xs.any (fun x => match x with | JValue.str s => s = "call" | _ => false) then
      Except.error "TypeError"
    else Except.ok ()
  | some _ => Except.error "TypeError"
  | none => Except.ok ()

/-- The result payload returned when no session exists for the call. -/
def noSessionResult : JValue :=
  JValue.obj [("site_identified", JValue.bool false),
    ("error", JValue.str "Session not found. Please authenticate first."),
    ("message", JValue.str "I couldn't find your session. Please try calling again.")]

/-- The result payload returned when the tenant has no active sites (or the
candidate fetch failed). -/
def noSitesResult : JValue :=
  JValue.obj [("site_identified", JValue.bool false),
    ("message", JValue.str "I couldn't find any active sites for your account. Please contact support.")]

/-- One entry of the `sites_list` read back to the caller. -/
def siteEntry (s : Site) : JValue :=
  JValue.obj [("site_id", JValue.str s.id), ("site_name", JValue.str s.name),
    ("site_identifier", optJ s.identifier), ("site_address", optJ s.address)]

/-- The result payload returned when no description was given: the full,
unfiltered candidate list. -/
def sitesListResult (sites : List Site) : JValue :=
  JValue.obj [("site_identified", JValue.bool false),
    ("sites_list", JValue.arr (sites.map siteEntry)),
    ("message", JValue.str ("You have " ++ toString sites.length ++ " sites available for updates."))]

/-- The result payload for a non-2xx completion-service response. -/
def aiErrorResult : JValue :=
  JValue.obj [("site_identified", JValue.bool false),
    ("message", JValue.str "I'm having trouble matching that to a site. Could you be more specific?")]

/-- The result payload for a completion reply that is not valid JSON. -/
def badJsonResult : JValue :=
  JValue.obj [("site_identified", JValue.bool false),
    ("message", JValue.str "I'm having trouble understanding which site you mean. Can you tell me the site name?")]

/-- The result payload for a validated match: every field is drawn from the
matched candidate itself. -/
def successResult (ms : Site) : JValue :=
  JValue.obj [("site_identified", JValue.bool true),
    ("site_id", JValue.str ms.id), ("site_name", JValue.str ms.name),
    ("site_identifier", optJ ms.identifier), ("site_address", optJ ms.address),
    ("message", JValue.str ("Great! Let's record an update for " ++ ms.name ++ "."))]

/-- The clarification suggestion built from the candidate names, phrased for
1 / 2 / 3+ candidates. -/
def clarifySuggestion (siteNames : List String) : String :=
  match siteNames with
  | [n] => "Did you mean " ++ n ++ "?"
  | [n1, n2] => "Did you mean " ++ n1 ++ " or " ++ n2 ++ "?"
  | ns => "Your available sites are: " ++ String.intercalate ", " ns ++ "."

/-- The not-found result payload: clarification message listing candidates. -/
def clarifyResult (sites : List Site) : JValue :=
  JValue.obj [("site_identified", JValue.bool false),
    ("message", JValue.str ("I couldn't match that to a site. " ++
      clarifySuggestion (sites.map Site.name)))]

/--
The body of `identify_site_for_update`
(src/app/skills/site_updates/endpoints.py lines 74-264), i.e. everything
inside the handler's `try`.  `session` is the oracle for
`get_session_context_by_call_id`, `sitesFetch` for the tenant candidate
fetch (`none` = non-200 response), `ai` for the completion call.  A returned
`Except.error` is an exception escaping to the handler's `except` clause.
Branches, in source order: argument extraction (done by the caller), call-id
subscripting, `args.get("site_description", "")`, missing session, failed or
empty candidate fetch, empty/whitespace description (current list returned,
no completion call), completion failure, JSON parse failure, the validation
gate re-looking the returned `site_id` up in the fetched list, and the
clarification fallback.
-/
def identifySiteTry (request : List (String × JValue)) (tcid args : JValue)
    (session : Option SessionContext) (sitesFetch : Option (List Site))
    (ai : AIOutcome) : Except String JValue :=
  match callIdExtract request with
  | Except.error e => Except.error e
  | Except.ok () =>
    match args with
    | JValue.obj afs =>
      match session with
      | none =>
        Except.ok (JValue.obj [("results", JValue.arr [JValue.obj
          [("toolCallId", tcid), ("result", noSessionResult)]])])
      | some _sc =>
        match sitesFetch with
        | none =>
          Except.ok (JValue.obj [("results", JValue.arr [JValue.obj
            [("toolCallId", tcid), ("result", noSitesResult)]])])
        | some sites =>
          if sites.isEmpty then
            Except.ok (JValue.obj [("results", JValue.arr [JValue.obj
              [("toolCallId", tcid), ("result", noSitesResult)]])])
          else if !((jLookup "site_description" afs).getD (JValue.str "")).truthy then
            Except.ok (JValue.obj [("results", JValue.arr [JValue.obj
              [("toolCallId", tcid), ("result", sitesListResult sites)]])])
          else
            match (jLookup "site_description" afs).getD (JValue.str "") with
            | JValue.str s =>
              if pyStrip s = "" then
                Except.ok (JValue.obj [("results", JValue.arr [JValue.obj
                  [("toolCallId", tcid), ("result", sitesListResult sites)]])])
              else
                match ai with
                | AIOutcome.httpError =>
                  Except.ok (JValue.obj [("results", JValue.arr [JValue.obj
                    [("toolCallId", tcid), ("result", aiErrorResult)]])])
                | AIOutcome.badJson =>
                  Except.ok (JValue.obj [("results", JValue.arr [JValue.obj
                    [("toolCallId", tcid), ("result", badJsonResult)]])])
                | AIOutcome.parsed m =>
                  if ((jLookup "site_found" m).getD JValue.null).truthy then
                    match jLookup "site_id" m with
                    | none => Except.error "KeyError"
                    | some v =>
                      match sites.find? (fun st => jStrEq v st.id) with
                      | some ms =>
                        Except.ok (JValue.obj [("results", JValue.arr [JValue.obj
                          [("toolCallId", tcid), ("result", successResult ms)]])])
                      | none =>
                        Except.ok (JValue.obj [("results", JValue.arr [JValue.obj
                          [("toolCallId", tcid), ("result", clarifyResult sites)]])])
                  else
                    Except.ok (JValue.obj [("results", JValue.arr [JValue.obj
                      [("toolCallId", tcid), ("result", clarifyResult sites)]])])
            | _ => Except.error "AttributeError"
    | _ => Except.error "AttributeError"

/--
Model of the full `identify_site_for_update` webhook handler: extraction,
body, and the `except` clause (lines 266-277) that wraps any escaping
exception into the error envelope (at that point `tool_call_id` is always
assigned, since `extract_vapi_args` never raises).
-/
def identify_site_for_update (request : List (String × JValue))
    (session : Option SessionContext) (sitesFetch : Option (List Site))
    (ai : AIOutcome) : JValue :=
  match identifySiteTry request (extract_vapi_args request).1 (extract_vapi_args request).2
      session sitesFetch ai with
  | Except.ok resp => resp
  | Except.error e =>
    JValue.obj [("results", JValue.arr [JValue.obj [("toolCallId", (extract_vapi_args request).1),
      ("result", JValue.obj [("site_identified", JValue.bool false),
        ("error", JValue.str ("System error: " ++ e)),
        ("message", JValue.str "I'm having trouble processing that. Please try again.")])]])]

/-- The mandatory webhook response envelope (spec §6), as a spec-side
abbreviation used to state that every handler reply has this exact shape. -/
def envl (tcid result : JValue) : JValue :=
  JValue.obj [("results", JValue.arr [JValue.obj [("toolCallId", tcid),
    ("result", result)]])]

/-- A result payload that carries a machine-readable outcome flag under the
given key and a user-facing message string. -/
def msgAndFlag (flagKey : String) (r : JValue) : Prop :=
  ∃ rf, r = JValue.obj rf ∧ (∃ b, jLookup flagKey rf = some (JValue.bool b)) ∧
    ∃ s, jLookup "message" rf = some (JValue.str s)

/-- A canonical identify-site webhook request carrying the given description
as the first tool call's arguments. -/
def mkSiteReq (desc : String) : List (String × JValue) :=
  mkReq [JValue.obj [("id", JValue.str "tc-0"),
    ("function", JValue.obj [("arguments",
      JValue.obj [("site_description", JValue.str desc)])])]]

/-- Every non-raising path of the identify-site body yields the response
envelope around a result that carries the `site_identified` flag and a
message; the flag is `true` only on the validated-match path, whose payload
is built from a candidate found in the fetched list. -/
theorem identifySiteTry_ok_shape
    (request : List (String × JValue)) (tcid args : JValue)
    (session : Option SessionContext) (sitesFetch : Option (List Site))
    (ai : AIOutcome) (resp : JValue)
    (h : identifySiteTry request tcid args session sitesFetch ai = Except.ok resp) :
    ∃ r, resp = envl tcid r ∧ msgAndFlag "site_identified" r ∧
      ((∃ rf, r = JValue.obj rf ∧ jLookup "site_identified" rf = some (JValue.bool false)) ∨
       ∃ sites ms, sitesFetch = some sites ∧ ms ∈ sites ∧ r = successResult ms) := by
  unfold identifySiteTry at h
  repeat' split at h
  all_goals first
    | exact Except.noConfusion h
    | (injection h with h; subst h;
       exact ⟨_, rfl, ⟨_, rfl, ⟨false, rfl⟩, ⟨_, rfl⟩⟩, Or.inl ⟨_, rfl, rfl⟩⟩)
    | (injection h with h; subst h;
       refine ⟨_, rfl, ⟨_, rfl, ⟨true, rfl⟩, ⟨_, rfl⟩⟩, Or.inr ⟨_, _, rfl, ?_, rfl⟩⟩;
       exact List.mem_of_find?_eq_some (by assumption))

/-- The `tool_call_id` the `vapi_tool` wrapper holds when it builds its
response (the extracted id, or whatever was assigned when the exception
fired). -/
def wTcid : WExtract → JValue
  | WExtract.ok t _ => t
  | WExtract.exn t _ => t

/-- C6: with an authenticated session, a successful non-empty candidate
fetch, and an empty or all-whitespace description, the handler returns the
not-attempted result carrying the full, unfiltered candidate list — and its
reply does not depend on the completion-service oracle at all (no completion
call is made). -/
theorem identify_site_empty_description
    (desc : String) (sc : SessionContext) (sites : List Site) (ai ai' : AIOutcome)
    (hdesc : pyStrip desc = "") (hne : sites ≠ []) :
    identify_site_for_update (mkSiteReq desc) (some sc) (some sites) ai =
      envl (JValue.str "tc-0") (sitesListResult sites) ∧
    identify_site_for_update (mkSiteReq desc) (some sc) (some sites) ai =
      identify_site_for_update (mkSiteReq desc) (some sc) (some sites) ai' := by
  have hempty : sites.isEmpty = false := by
    simp [List.isEmpty_iff]
    exact hne
  have key : ∀ a : AIOutcome,
      identify_site_for_update (mkSiteReq desc) (some sc) (some sites) a =
        envl (JValue.str "tc-0") (sitesListResult sites) := by
    intro a
    have hext : extract_vapi_args (mkSiteReq desc) =
        (JValue.str "tc-0", JValue.obj [("site_description", JValue.str desc)]) := rfl
    unfold identify_site_for_update
    rw [hext]
    unfold identifySiteTry
    have hcall : callIdExtract (mkSiteReq desc) = Except.ok () := rfl
    rw [hcall]
    by_cases hd : desc = ""
    · subst hd
      simp [mkSiteReq, mkReq, jLookup, List.lookup, hempty, JValue.truthy, envl]
    · have htr : (JValue.str desc).truthy = true := by
        simp [JValue.truthy]
        exact hd
      simp [mkSiteReq, mkReq, jLookup, List.lookup, hempty, htr, hdesc, envl]
  exact ⟨key ai, (key ai).trans (key ai').symm⟩

/-- Closed witness for C6: empty and whitespace descriptions over a concrete
two-candidate set give the full list back, independent of the
completion-service oracle. -/
theorem identify_site_empty_description_witness :
    identify_site_for_update (mkSiteReq "   ")
        (some ⟨"t1", "u1", "p1", none, none⟩)
        (some [⟨"s1", "Ocean House", none, none⟩, ⟨"s2", "Smith Build", none, none⟩])
        AIOutcome.httpError =
      envl (JValue.str "tc-0")
        (sitesListResult [⟨"s1", "Ocean House", none, none⟩, ⟨"s2", "Smith Build", none, none⟩]) ∧
    identify_site_for_update (mkSiteReq "   ")
        (some ⟨"t1", "u1", "p1", none, none⟩)
        (some [⟨"s1", "Ocean House", none, none⟩, ⟨"s2", "Smith Build", none, none⟩])
        AIOutcome.httpError =
      identify_site_for_update (mkSiteReq "   ")
        (some ⟨"t1", "u1", "p1", none, none⟩)
        (some [⟨"s1", "Ocean House", none, none⟩, ⟨"s2", "Smith Build", none, none⟩])
        (AIOutcome.parsed [("site_found", JValue.bool true), ("site_id", JValue.str "s1")]) :=
  identify_site_empty_description "   " ⟨"t1", "u1", "p1", none, none⟩
    [⟨"s1", "Ocean House", none, none⟩, ⟨"s2", "Smith Build", none, none⟩]
    AIOutcome.httpError
    (AIOutcome.parsed [("site_found", JValue.bool true), ("site_id", JValue.str "s1")])
    (by decide) (by simp)

/-- C1: the validation gate.  (a) Soundness: whenever the handler replies
with `site_identified = true`, the returned `site_id` is literally the id of
a candidate in the list fetched during that same call.  (b) If the
completion service says `site_found: true` but names an id matching no
fetched candidate, the handler returns `site_identified = false` with the
clarification message — never a Found result. -/
theorem identify_site_validation_gate :
    (∀ (request : List (String × JValue)) (session : Option SessionContext)
       (sites : List Site) (ai : AIOutcome) (tcid r : JValue)
       (rf : List (String × JValue)),
      identify_site_for_update request session (some sites) ai = envl tcid r →
      r = JValue.obj rf →
      jLookup "site_identified" rf = some (JValue.bool true) →
      ∃ ms ∈ sites, jLookup "site_id" rf = some (JValue.str ms.id)) ∧
    (∀ (desc : String) (sc : SessionContext) (sites : List Site)
       (m : List (String × JValue)) (sid : String),
      pyStrip desc ≠ "" → sites ≠ [] →
      ((jLookup "site_found" m).getD JValue.null).truthy = true →
      jLookup "site_id" m = some (JValue.str sid) →
      (∀ s ∈ sites, s.id ≠ sid) →
      identify_site_for_update (mkSiteReq desc) (some sc) (some sites)
        (AIOutcome.parsed m) = envl (JValue.str "tc-0") (clarifyResult sites)) := by
  constructor
  · intro request session sites ai tcid r rf h hr hflag
    unfold identify_site_for_update at h
    cases htry : identifySiteTry request (extract_vapi_args request).1
        (extract_vapi_args request).2 session (some sites) ai with
    | error e =>
      rw [htry] at h
      simp only [envl, JValue.obj.injEq, List.cons.injEq, Prod.mk.injEq,
        JValue.arr.injEq, and_true, true_and] at h
      obtain ⟨-, hr'⟩ := h
      rw [← hr'] at hr
      injection hr with hr
      rw [← hr] at hflag
      simp [jLookup, List.lookup] at hflag
    | ok resp =>
      rw [htry] at h
      obtain ⟨r', hresp, -, hcase⟩ :=
        identifySiteTry_ok_shape _ _ _ _ _ _ _ htry
      rw [hresp] at h
      simp only [envl, JValue.obj.injEq, List.cons.injEq, Prod.mk.injEq,
        JValue.arr.injEq, and_true, true_and] at h
      obtain ⟨-, hr'⟩ := h
      rcases hcase with ⟨rf', hrobj, hlk⟩ | ⟨sites', ms, hsf, hmem, hsucc⟩
      · rw [hr'] at hrobj
        rw [hrobj] at hr
        injection hr with hr
        rw [← hr] at hflag
        rw [hlk] at hflag
        simp at hflag
      · injection hsf with hsf
        subst hsf
        refine ⟨ms, hmem, ?_⟩
        rw [hr'] at hsucc
        rw [hsucc] at hr
        unfold successResult at hr
        injection hr with hr
        rw [← hr]
        rfl
  · intro desc sc sites m sid hdesc hne hfound hsid hnotin
    have hempty : sites.isEmpty = false := by
      simp [List.isEmpty_iff]
      exact hne
    have hd : desc ≠ "" := fun h => hdesc (by rw [h]; rfl)
    have htr : (JValue.str desc).truthy = true := by
      simp [JValue.truthy]
      exact hd
    have hfind : List.find? (fun st => jStrEq (JValue.str sid) st.id) sites = none := by
      rw [List.find?_eq_none]
      intro s hs
      simp [jStrEq]
      exact fun h => hnotin s hs h.symm
    have hext : extract_vapi_args (mkSiteReq desc) =
        (JValue.str "tc-0", JValue.obj [("site_description", JValue.str desc)]) := rfl
    unfold identify_site_for_update
    rw [hext]
    unfold identifySiteTry
    have hcall : callIdExtract (mkSiteReq desc) = Except.ok () := rfl
    rw [hcall]
    unfold jLookup at hfound hsid
    simp [mkSiteReq, mkReq, jLookup, List.lookup, hempty, htr, hdesc, hfound, hsid,
      hfind, envl]

/-- Closed witness for C1: the completion service claims `site_found: true`
with the invented id "s9"; the handler answers with the clarification
not-found result. -/
theorem identify_site_validation_gate_witness :
    identify_site_for_update (mkSiteReq "the ocean one")
        (some ⟨"t1", "u1", "p1", none, none⟩)
        (some [⟨"s1", "Ocean House", none, none⟩, ⟨"s2", "Smith Build", none, none⟩])
        (AIOutcome.parsed [("site_found", JValue.bool true), ("site_id", JValue.str "s9")]) =
      envl (JValue.str "tc-0")
        (clarifyResult [⟨"s1", "Ocean House", none, none⟩, ⟨"s2", "Smith Build", none, none⟩]) :=
  identify_site_validation_gate.2 "the ocean one" ⟨"t1", "u1", "p1", none, none⟩
    [⟨"s1", "Ocean House", none, none⟩, ⟨"s2", "Smith Build", none, none⟩]
    [("site_found", JValue.bool true), ("site_id", JValue.str "s9")] "s9"
    (by decide) (by simp) rfl rfl (by decide)

/-- C3: every webhook reply is the mandatory one-entry envelope
`{"results": [{"toolCallId": ..., "result": ...}]}`.  For the `vapi_tool`
wrapper the echoed id is whatever the extraction held, and a raised handler
exception becomes a `success: false` result with a friendly message (never a
propagated exception); for `identify_site_for_update` the result always
carries the `site_identified` flag and a user-facing message on every path,
including the internal-exception path. -/
theorem webhook_envelope_discipline :
    (∀ (fname : String) (f : JValue → Except String JValue)
       (request : List (String × JValue)),
      ∃ r, vapi_tool fname f request = envl (wTcid (vapiToolExtract request)) r) ∧
    (∀ (fname : String) (f : JValue → Except String JValue)
       (request : List (String × JValue)) (tcid args : JValue) (e : String),
      vapiToolExtract request = WExtract.ok tcid args →
      f args = Except.error e →
      vapi_tool fname f request = envl tcid (JValue.obj [("success", JValue.bool false),
        ("error", JValue.str e),
        ("message", JValue.str ("Error in " ++ fname ++ ": " ++ e))])) ∧
    (∀ (request : List (String × JValue)) (session : Option SessionContext)
       (sitesFetch : Option (List Site)) (ai : AIOutcome),
      ∃ r, identify_site_for_update request session sitesFetch ai =
          envl (extract_vapi_args request).1 r ∧
        msgAndFlag "site_identified" r) := by
  refine ⟨?_, ?_, ?_⟩
  · intro fname f request
    cases hE : vapiToolExtract request with
    | exn t m =>
      refine ⟨JValue.obj [("success", JValue.bool false), ("error", JValue.str m),
        ("message", JValue.str ("Error in " ++ fname ++ ": " ++ m))], ?_⟩
      simp only [vapi_tool, wTcid, envl, hE]
    | ok t a =>
      cases hF : f a with
      | ok r =>
        refine ⟨r, ?_⟩
        simp only [vapi_tool, wTcid, envl, hE, hF]
      | error e =>
        refine ⟨JValue.obj [("success", JValue.bool false), ("error", JValue.str e),
          ("message", JValue.str ("Error in " ++ fname ++ ": " ++ e))], ?_⟩
        simp only [vapi_tool, wTcid, envl, hE, hF]
  · intro fname f request tcid args e h1 h2
    simp only [vapi_tool, envl, h1, h2]
  · intro request session sitesFetch ai
    unfold identify_site_for_update
    cases htry : identifySiteTry request (extract_vapi_args request).1
        (extract_vapi_args request).2 session sitesFetch ai with
    | error e =>
      exact ⟨_, rfl, _, rfl, ⟨false, rfl⟩, _, rfl⟩
    | ok resp =>
      obtain ⟨r, hresp, hmf, -⟩ := identifySiteTry_ok_shape _ _ _ _ _ _ _ htry
      exact ⟨r, hresp, hmf⟩

/-- Closed witness for C3: a handler that raises is answered with the error
envelope echoing the extracted tool call id. -/
theorem webhook_envelope_discipline_witness :
    vapi_tool "save_note" (fun _ => Except.error "boom")
        (mkReq [JValue.obj [("id", JValue.str "tc-9")]]) =
      envl (JValue.str "tc-9") (JValue.obj [("success", JValue.bool false),
        ("error", JValue.str "boom"),
        ("message", JValue.str ("Error in " ++ "save_note" ++ ": " ++ "boom"))]) :=
  webhook_envelope_discipline.2.1 "save_note" (fun _ => Except.error "boom")
    (mkReq [JValue.obj [("id", JValue.str "tc-9")]])
    (JValue.str "tc-9") (JValue.obj []) "boom" rfl rfl

/-- One row of the `vapi_logs` table (the durable, append-only session event
log).  `raw_log_data` is represented by the two fields the session read
actually projects out; `created_at` is the insertion timestamp assigned by
the store. -/
structure LogRow where
  vapi_call_id : String
  interaction_type : String
  tenant_id : String
  user_id : String
  caller_phone : String
  user_name : Option String
  tenant_name : Option String
  created_at : Nat

/-- The REST filter predicate
`vapi_call_id=eq.<cid> & interaction_type=eq.authentication`. -/
def isAuthFor (cid : String) (r : LogRow) : Bool :=
  r.vapi_call_id == cid && r.interaction_type == "authentication"

/-- The rows selected by that filter. -/
def authRowsFor (db : List LogRow) (cid : String) : List LogRow :=
  db.filter (isAuthFor cid)

/-- One step of `ORDER BY created_at DESC LIMIT 1`: keep the row with the
strictly larger timestamp (the earlier-listed row on a tie). -/
def pickLatest (acc : Option LogRow) (r : LogRow) : Option LogRow :=
  match acc with
  | none => some r
  | some a => if a.created_at < r.created_at then some r else some a

/-- The single row produced by
`ORDER BY created_at DESC LIMIT 1` over the filtered rows. -/
def latestAuthRow (db : List LogRow) (cid : String) : Option LogRow :=
  (authRowsFor db cid).foldl pickLatest none

/-- Model of `get_session_context_by_call_id`
(src/app/skills/site_updates/endpoints.py lines 24-62), with the store
reachable: fetch the most recent authentication event for the call id and
project the identity snapshot; `none` when no such event exists. -/
def get_session_context_by_call_id (db : List LogRow) (cid : String) :
    Option SessionContext :=
  match latestAuthRow db cid with
  | some r => some ⟨r.tenant_id, r.user_id, r.caller_phone, r.user_name, r.tenant_name⟩
  | none => none

/-- The largest timestamp present in the log. -/
def maxCreated (db : List LogRow) : Nat :=
  db.foldr (fun r m => max r.created_at m) 0

/-- Model of `log_vapi_interaction`
(src/app/skills/authentication/endpoints.py lines 21-53) for a given
interaction kind: append one event row.  The store assigns `created_at`;
its monotone clock is modelled by a timestamp strictly larger than every
existing row's. -/
def log_vapi_interaction (db : List LogRow) (cid kind tenant user phone : String)
    (uname tname : Option String) : List LogRow :=
  db ++ [⟨cid, kind, tenant, user, phone, uname, tname, maxCreated db + 1⟩]

/-- Every row's timestamp is bounded by `maxCreated`. -/
theorem created_le_maxCreated (db : List LogRow) (r : LogRow) (h : r ∈ db) :
    r.created_at ≤ maxCreated db := by
  induction db with
  | nil => cases h
  | cons x xs ih =>
    rcases List.mem_cons.mp h with h1 | h2
    · subst h1
      exact le_max_left _ _
    · exact le_trans (ih h2) (le_max_right _ _)

/-- The fold over `pickLatest` yields the accumulator or a list element. -/
theorem foldl_pickLatest_cases (l : List LogRow) :
    ∀ (acc : Option LogRow) (a : LogRow),
      l.foldl pickLatest acc = some a → acc = some a ∨ a ∈ l := by
  induction l with
  | nil =>
    intro acc a h
    exact Or.inl h
  | cons x xs ih =>
    intro acc a h
    rcases ih (pickLatest acc x) a h with h1 | h2
    · cases acc with
      | none =>
        simp only [pickLatest] at h1
        injection h1 with h1
        exact Or.inr (h1 ▸ List.mem_cons_self x xs)
      | some b =>
        simp only [pickLatest] at h1
        by_cases hlt : b.created_at < x.created_at
        · rw [if_pos hlt] at h1
          injection h1 with h1
          exact Or.inr (h1 ▸ List.mem_cons_self x xs)
        · rw [if_neg hlt] at h1
          exact Or.inl h1
    · exact Or.inr (List.mem_cons_of_mem x h2)

/-- Appending a fresh authentication row for `cid` (timestamp strictly above
every existing row) makes it the latest row the read selects. -/
theorem latestAuthRow_append (db : List LogRow) (cid : String) (newRow : LogRow)
    (hcid : newRow.vapi_call_id = cid)
    (hk : newRow.interaction_type = "authentication")
    (hfresh : ∀ r ∈ db, r.created_at < newRow.created_at) :
    latestAuthRow (db ++ [newRow]) cid = some newRow := by
  unfold latestAuthRow authRowsFor
  have hpass : List.filter (isAuthFor cid) [newRow] = [newRow] := by
    simp [isAuthFor, hcid, hk]
  rw [List.filter_append, hpass, List.foldl_append]
  cases hacc : List.foldl pickLatest none (List.filter (isAuthFor cid) db) with
  | none => simp [List.foldl, pickLatest]
  | some a =>
    have hmem : a ∈ List.filter (isAuthFor cid) db := by
      rcases foldl_pickLatest_cases _ _ _ hacc with h | h
      · exact absurd h (by simp)
      · exact h
    have hlt : a.created_at < newRow.created_at :=
      hfresh a (List.mem_of_mem_filter hmem)
    simp [List.foldl, pickLatest, hlt]

/-- C2: session round-trip on the event log.  Recording an authentication
event and resolving the same call id returns exactly the recorded identity;
recording two authentication events with different tenants returns the
second (newest); resolving a call id with no authentication event returns
none. -/
theorem session_roundtrip :
    (∀ (db : List LogRow) (cid tenant user phone : String) (un tn : Option String),
      get_session_context_by_call_id
          (log_vapi_interaction db cid "authentication" tenant user phone un tn) cid =
        some ⟨tenant, user, phone, un, tn⟩) ∧
    (∀ (db : List LogRow) (cid t1 u1 p1 t2 u2 p2 : String)
       (un1 tn1 un2 tn2 : Option String),
      get_session_context_by_call_id
          (log_vapi_interaction
            (log_vapi_interaction db cid "authentication" t1 u1 p1 un1 tn1)
            cid "authentication" t2 u2 p2 un2 tn2) cid =
        some ⟨t2, u2, p2, un2, tn2⟩) ∧
    (∀ (db : List LogRow) (cid : String),
      (∀ r ∈ db, ¬(r.vapi_call_id = cid ∧ r.interaction_type = "authentication")) →
      get_session_context_by_call_id db cid = none) := by
  have key : ∀ (db : List LogRow) (cid tenant user phone : String) (un tn : Option String),
      get_session_context_by_call_id
          (log_vapi_interaction db cid "authentication" tenant user phone un tn) cid =
        some ⟨tenant, user, phone, un, tn⟩ := by
    intro db cid tenant user phone un tn
    unfold get_session_context_by_call_id log_vapi_interaction
    rw [latestAuthRow_append db cid _ rfl rfl ?_]
    intro r hr
    have := created_le_maxCreated db r hr
    show r.created_at < maxCreated db + 1
    omega
  refine ⟨key, ?_, ?_⟩
  · intro db cid t1 u1 p1 t2 u2 p2 un1 tn1 un2 tn2
    exact key _ cid t2 u2 p2 un2 tn2
  · intro db cid hno
    unfold get_session_context_by_call_id latestAuthRow authRowsFor
    have hnil : db.filter (isAuthFor cid) = [] := by
      rw [List.filter_eq_nil_iff]
      intro r hr
      have := hno r hr
      simp [isAuthFor]
      tauto
    rw [hnil]
    rfl

/-- Closed witness for C2: one record then resolve over the empty log, and a
resolve on an empty log with no recorded events. -/
theorem session_roundtrip_witness :
    get_session_context_by_call_id
        (log_vapi_interaction [] "abc" "authentication" "t1" "u1" "p1" none none) "abc" =
      some ⟨"t1", "u1", "p1", none, none⟩ ∧
    get_session_context_by_call_id [] "abc" = none :=
  ⟨session_roundtrip.1 [] "abc" "t1" "u1" "p1" none none,
   session_roundtrip.2.2 [] "abc" (fun r hr => absurd hr (List.not_mem_nil r))⟩

/-- The raw update-data record built by the save handler
(src/app/skills/site_updates/endpoints.py lines 353-365) and fed to the
processor: nine optional narrative fields, the wet-weather flag, and the raw
transcript, in dict insertion order. -/
structure UpdateData where
  main_focus : Option String
  is_wet_weather_closure : Bool
  materials_delivered : Option String
  work_progress : Option String
  issues : Option String
  delays : Option String
  staffing : Option String
  site_visitors : Option String
  site_conditions : Option String
  follow_up_actions : Option String
  raw_transcript : String

/-- The structurally valid extraction result (`ExtractedUpdate`). -/
structure ExtractedUpdate where
  summary_brief : String
  summary_detailed : String
  has_urgent_issues : Bool
  has_safety_concerns : Bool
  has_delays : Bool
  has_material_issues : Bool
  extracted_action_items : List JValue
  identified_blockers : List JValue
  flagged_concerns : List JValue

/-- `update_data.values()` kept when `v and isinstance(v, str)`: the truthy
(non-empty) string values, in dict order; the boolean field is never a
string. -/
def stringValues (u : UpdateData) : List String :=
  ([u.main_focus, u.materials_delivered, u.work_progress, u.issues, u.delays,
    u.staffing, u.site_visitors, u.site_conditions, u.follow_up_actions,
    some u.raw_transcript].filterMap id).filter (fun s => s != "")

/-- ASCII lower-casing of one character (Python `str.lower()` restricted to
ASCII input). -/
def lowerChar (c : Char) : Char :=
  if 65 ≤ c.toNat ∧ c.toNat ≤ 90 then Char.ofNat (c.toNat + 32) else c

/-- Python `s.lower()`. -/
def pyLower (s : String) : String :=
  String.mk (s.toList.map lowerChar)

/-- `" ".join(...)` of the kept values, lower-cased — the haystack the
fallback keyword matching scans. -/
def text_content (u : UpdateData) : String :=
  pyLower (String.intercalate " " (stringValues u))

/-- Python `str(value)` for an optional narrative field fetched with
`dict.get`: the key is always present in the record, so a `None` value
renders as the string "None". -/
def pyOptStr : Option String → String
  | some s => s
  | none => "None"

/-- Model of `SiteUpdateProcessor._get_fallback_processing`
(src/app/skills/site_updates/processors.py lines 153-176): templated
summaries, four keyword-derived boolean flags over the concatenated
lower-cased string fields, and always-empty item lists. -/
def _get_fallback_processing (u : UpdateData) : ExtractedUpdate :=
  { summary_brief := "Site update recorded for " ++ pyOptStr u.main_focus
    summary_detailed := "Main focus: " ++ pyOptStr u.main_focus ++
      ". Work progress: " ++ pyOptStr u.work_progress ++
      ". Issues: " ++ pyOptStr u.issues ++ "."
    has_urgent_issues :=
      ["urgent", "critical", "emergency", "immediate"].any
        (fun w => strContains (text_content u) w)
    has_safety_concerns :=
      ["safety", "hazard", "injury", "dangerous", "unsafe"].any
        (fun w => strContains (text_content u) w)
    has_delays :=
      ["delay", "behind", "postpone", "reschedule"].any
        (fun w => strContains (text_content u) w)
    has_material_issues :=
      ["material", "delivery", "supply", "shortage"].any
        (fun w => strContains (text_content u) w)
    extracted_action_items := []
    identified_blockers := []
    flagged_concerns := [] }

example :
    (_get_fallback_processing
      { main_focus := none, is_wet_weather_closure := false,
        materials_delivered := none, work_progress := none,
        issues := some "URGENT leak", delays := none, staffing := none,
        site_visitors := none, site_conditions := none,
        follow_up_actions := none, raw_transcript := "" }).has_urgent_issues = true := by
  decide

/-- C4: the extraction fallback is a total deterministic function (a Lean
function of the input record): each boolean flag is true exactly when one of
its keyword set occurs, case-insensitively, in the concatenation of the
string-valued input fields, and the three item lists are always exactly the
empty list. -/
theorem fallback_processing_spec :
    ∀ u : UpdateData,
      ((_get_fallback_processing u).has_urgent_issues = true ↔
        ∃ w ∈ ["urgent", "critical", "emergency", "immediate"],
          strContains (text_content u) w = true) ∧
      ((_get_fallback_processing u).has_safety_concerns = true ↔
        ∃ w ∈ ["safety", "hazard", "injury", "dangerous", "unsafe"],
          strContains (text_content u) w = true) ∧
      ((_get_fallback_processing u).has_delays = true ↔
        ∃ w ∈ ["delay", "behind", "postpone", "reschedule"],
          strContains (text_content u) w = true) ∧
      ((_get_fallback_processing u).has_material_issues = true ↔
        ∃ w ∈ ["material", "delivery", "supply", "shortage"],
          strContains (text_content u) w = true) ∧
      (_get_fallback_processing u).extracted_action_items = [] ∧
      (_get_fallback_processing u).identified_blockers = [] ∧
      (_get_fallback_processing u).flagged_concerns = [] := by
  intro u
  refine ⟨?_, ?_, ?_, ?_, rfl, rfl, rfl⟩ <;>
    simp [_get_fallback_processing, List.any_eq_true]

/-- The remote tool provider: its current tool list (declared function name
paired with the opaque tool id, in creation order) and a counter seeding the
opaque ids it assigns to newly created tools. -/
structure RemoteStore where
  tools : List (String × String)
  nextId : Nat

/-- The name-to-id map `_get_existing_tools` builds
(src/app/skills/voice_notes/skill.py lines 169-186): a dict comprehension
keyed by declared function name, so a later listing entry overwrites an
earlier one — lookup of the last occurrence. -/
def lookupLast (n : String) (l : List (String × String)) : Option String :=
  List.lookup n l.reverse

/-- The opaque id the provider assigns to the next created tool. -/
def freshToolId (st : RemoteStore) : String :=
  "tool-" ++ toString st.nextId

/--
The creation loop of `create_tools`
(src/app/skills/voice_notes/skill.py lines 135-167): `existing` is the
name-to-id map fetched once before the loop; for each configured tool name,
reuse the existing id if present, otherwise POST a new tool (the provider
appends it and returns a fresh id).  Returns the accumulated
`tool_ids` map, the provider state after the run, and the number of
creation requests performed.
-/
def createToolsGo (existing : List (String × String)) :
    List String → RemoteStore → List (String × String) × RemoteStore × Nat
  | [], st => ([], st, 0)
  | n :: rest, st =>
    match lookupLast n existing with
    | some tid =>
      ((n, tid) :: (createToolsGo existing rest st).1,
       (createToolsGo existing rest st).2.1,
       (createToolsGo existing rest st).2.2)
    | none =>
      ((n, freshToolId st) ::
        (createToolsGo existing rest
          ⟨st.tools ++ [(n, freshToolId st)], st.nextId + 1⟩).1,
       (createToolsGo existing rest
          ⟨st.tools ++ [(n, freshToolId st)], st.nextId + 1⟩).2.1,
       (createToolsGo existing rest
          ⟨st.tools ++ [(n, freshToolId st)], st.nextId + 1⟩).2.2 + 1)

/-- `create_tools`: fetch the remote provider's existing tool list, then run
the creation loop over the configured tool names. -/
def create_tools (config : List String) (st : RemoteStore) :
    List (String × String) × RemoteStore × Nat :=
  createToolsGo st.tools config st

/-- The declared function names of the voice-notes skill's tool config. -/
def voiceNotesToolNames : List String :=
  ["authenticate_caller", "identify_context", "save_note"]

/-- Association-list lookup distributes over append, preferring the left
part. -/
theorem lookup_append (n : String) (a b : List (String × String)) :
    List.lookup n (a ++ b) = (List.lookup n a).orElse (fun _ => List.lookup n b) := by
  induction a with
  | nil => simp [Option.orElse]
  | cons x xs ih =>
    cases x with
    | mk k v =>
      by_cases h : n = k
      · subst h
        simp [List.lookup, Option.orElse]
      · have hbeq : (n == k) = false := by
          simp [h]
        simp [List.lookup, hbeq, ih]

/-- Last-occurrence lookup over append prefers the appended suffix. -/
theorem lookupLast_append (n : String) (a b : List (String × String)) :
    lookupLast n (a ++ b) = (lookupLast n b).orElse (fun _ => lookupLast n a) := by
  unfold lookupLast
  rw [List.reverse_append, lookup_append]

/-- Lookup misses a list none of whose keys is the sought name. -/
theorem lookupLast_eq_none (n : String) (l : List (String × String))
    (h : ∀ p ∈ l, p.1 ≠ n) : lookupLast n l = none := by
  unfold lookupLast
  induction l with
  | nil => rfl
  | cons x xs ih =>
    rw [List.reverse_cons, lookup_append]
    have h1 : List.lookup n xs.reverse = none := by
      have := ih (fun p hp => h p (List.mem_cons_of_mem x hp))
      exact this
    have h2 : List.lookup n [x] = none := by
      have hx := h x (List.mem_cons_self x xs)
      cases x with
      | mk k v =>
        have : (n == k) = false := by
          simp
          exact fun hh => hx hh.symm
        simp [List.lookup, this]
    rw [h1, h2]
    rfl

/-- When every configured name is already in the fetched map, the loop
reuses every id, performs zero creation requests, and leaves the provider
untouched. -/
theorem createToolsGo_all_existing (f : String → String) :
    ∀ (config : List String) (existing : List (String × String)) (st : RemoteStore),
      (∀ n ∈ config, lookupLast n existing = some (f n)) →
      createToolsGo existing config st = (config.map (fun n => (n, f n)), st, 0) := by
  intro config
  induction config with
  | nil => intro ex st _; rfl
  | cons n rest ih =>
    intro ex st h
    have hn := h n (List.mem_cons_self n rest)
    simp only [createToolsGo, hn, List.map_cons]
    rw [ih ex st (fun m hm => h m (List.mem_cons_of_mem n hm))]

/-- One run of the creation loop, started on a provider whose tool list
extends the fetched map only by entries whose names are not configured:
the returned map assigns one id per configured name, the provider grows by
entries for configured names only, and afterwards every configured name
resolves (by last occurrence) to exactly the id the run returned for it. -/
theorem createToolsGo_spec :
    ∀ (config : List String) (existing pre : List (String × String)) (st : RemoteStore),
      config.Nodup →
      st.tools = existing ++ pre →
      (∀ p ∈ pre, p.1 ∉ config) →
      ∃ (f : String → String) (created : List (String × String)),
        (createToolsGo existing config st).1 = config.map (fun n => (n, f n)) ∧
        (createToolsGo existing config st).2.1.tools = st.tools ++ created ∧
        (∀ p ∈ created, p.1 ∈ config) ∧
        (∀ n ∈ config, lookupLast n (createToolsGo existing config st).2.1.tools =
          some (f n)) := by
  intro config
  induction config with
  | nil =>
    intro existing pre st _ _ _
    exact ⟨fun _ => "", [], rfl, by simp [createToolsGo], by simp, by simp⟩
  | cons n rest ih =>
    intro existing pre st hnd hst hpre
    have hnmem : n ∉ rest := (List.nodup_cons.mp hnd).1
    have hrest : rest.Nodup := (List.nodup_cons.mp hnd).2
    cases hl : lookupLast n existing with
    | some t =>
      obtain ⟨f, created, h1, h2, h3, h4⟩ :=
        ih existing pre st hrest hst
          (fun p hp => fun hin => hpre p hp (List.mem_cons_of_mem n hin))
      refine ⟨fun m => if m = n then t else f m, created, ?_, ?_, ?_, ?_⟩
      · simp only [createToolsGo, hl, List.map_cons]
        rw [h1]
        refine congrArg₂ (· :: ·) (by simp) (List.map_congr_left ?_)
        intro m hm
        have hmn : m ≠ n := fun hx => hnmem (hx ▸ hm)
        simp [hmn]
      · simp only [createToolsGo, hl]
        exact h2
      · exact fun p hp => List.mem_cons_of_mem n (h3 p hp)
      · intro m hm
        rcases List.mem_cons.mp hm with hm1 | hm2
        · subst hm1
          simp only [createToolsGo, hl, if_pos rfl]
          rw [h2, hst, List.append_assoc, lookupLast_append]
          have hnone : lookupLast m (pre ++ created) = none := by
            apply lookupLast_eq_none
            intro p hp
            rcases List.mem_append.mp hp with hp1 | hp2
            · exact fun he => hpre p hp1 (he ▸ List.mem_cons_self m rest)
            · exact fun he => hnmem (he ▸ h3 p hp2)
          rw [hnone]
          exact hl
        · have : m ≠ n := fun hmn => hnmem (hmn ▸ hm2)
          simp only [createToolsGo, hl, if_neg this]
          exact h4 m hm2
    | none =>
      obtain ⟨f, created, h1, h2, h3, h4⟩ :=
        ih existing (pre ++ [(n, freshToolId st)])
          ⟨st.tools ++ [(n, freshToolId st)], st.nextId + 1⟩ hrest
          (by rw [hst, List.append_assoc])
          (by
            intro p hp hin
            rcases List.mem_append.mp hp with hp1 | hp2
            · exact hpre p hp1 (List.mem_cons_of_mem n hin)
            · simp at hp2
              rw [hp2] at hin
              exact hnmem hin)
      refine ⟨fun m => if m = n then freshToolId st else f m,
        (n, freshToolId st) :: created, ?_, ?_, ?_, ?_⟩
      · simp only [createToolsGo, hl, List.map_cons]
        rw [h1]
        refine congrArg₂ (· :: ·) (by simp) (List.map_congr_left ?_)
        intro m hm
        have hmn : m ≠ n := fun hx => hnmem (hx ▸ hm)
        simp [hmn]
      · simp only [createToolsGo, hl]
        rw [h2]
        simp
      · intro p hp
        rcases List.mem_cons.mp hp with hp1 | hp2
        · rw [hp1]
          exact List.mem_cons_self n rest
        · exact List.mem_cons_of_mem n (h3 p hp2)
      · intro m hm
        rcases List.mem_cons.mp hm with hm1 | hm2
        · subst hm1
          simp only [createToolsGo, hl, if_pos rfl]
          rw [h2]
          show lookupLast m ((st.tools ++ [(m, freshToolId st)]) ++ created) = _
          rw [lookupLast_append]
          have hnone : lookupLast m created = none := by
            apply lookupLast_eq_none
            intro p hp
            exact fun he => hnmem (he ▸ h3 p hp)
          rw [hnone]
          show lookupLast m (st.tools ++ [(m, freshToolId st)]) = _
          rw [lookupLast_append]
          simp [lookupLast, List.lookup]
        · have : m ≠ n := fun hmn => hnmem (hmn ▸ hm2)
          simp only [createToolsGo, hl, if_neg this]
          exact h4 m hm2

/-- C5: setup idempotence.  Running the tool-creation pass a second time
against the provider state left by the first run returns the identical
tool-name-to-id map, performs zero creation requests, and leaves the
provider unchanged. -/
theorem create_tools_idempotent (config : List String) (st : RemoteStore)
    (hnd : config.Nodup) :
    create_tools config (create_tools config st).2.1 =
      ((create_tools config st).1, (create_tools config st).2.1, 0) := by
  obtain ⟨f, created, h1, h2, h3, h4⟩ :=
    createToolsGo_spec config st.tools [] st hnd (by simp) (by simp)
  have hrun2 : create_tools config (create_tools config st).2.1 =
      (config.map (fun n => (n, f n)), (create_tools config st).2.1, 0) :=
    createToolsGo_all_existing f config (create_tools config st).2.1.tools
      (create_tools config st).2.1 h4
  rw [hrun2, ← h1]
  rfl

/-- Closed witness for C5: the voice-notes tool names, starting from an
empty provider. -/
theorem create_tools_idempotent_witness :
    create_tools voiceNotesToolNames
        (create_tools voiceNotesToolNames ⟨[], 0⟩).2.1 =
      ((create_tools voiceNotesToolNames ⟨[], 0⟩).1,
       (create_tools voiceNotesToolNames ⟨[], 0⟩).2.1, 0) :=
  create_tools_idempotent voiceNotesToolNames ⟨[], 0⟩ (by decide)

/-- Outcome of one fallible setup action: the Python call either returns a
value or raises (rendered by `str(e)`). -/
inductive Outcome (α : Type) where
  | ok (a : α)
  | err (e : String)
deriving DecidableEq

/-- Report entry for one assistant in phase 2: the tool-id map the registry
passed to its `setup`, and what the call produced. -/
structure AsstEntry where
  passed : List (String × String)
  outcome : Outcome String

/--
Phase 1 of `SkillRegistry.setup_all`
(src/app/skills/skill_registry.py lines 117-137): iterate the registered
skills; a successful `create_tools` merges its map into `all_tool_ids`
(`dict.update`, so a newer entry wins a name clash — modelled by prepending,
with first-match lookup); a raising skill is recorded as a per-key error
entry and the loop continues.  Returns the per-key results and the
accumulated map.
-/
def setupSkillsPhase :
    List (String × Outcome (List (String × String))) →
    List (String × String) →
    List (String × Outcome (List (String × String))) × List (String × String)
  | [], acc => ([], acc)
  | (k, Outcome.ok m) :: rest, acc =>
    ((k, Outcome.ok m) :: (setupSkillsPhase rest (m ++ acc)).1,
     (setupSkillsPhase rest (m ++ acc)).2)
  | (k, Outcome.err e) :: rest, acc =>
    ((k, Outcome.err e) :: (setupSkillsPhase rest acc).1,
     (setupSkillsPhase rest acc).2)

/-- Phase 2 (lines 139-155): every registered assistant's `setup` is called
with the one complete accumulated map; failures are recorded per key and the
loop continues. -/
def setupAssistantsPhase (allIds : List (String × String)) :
    List (String × (List (String × String) → Outcome String)) →
    List (String × AsstEntry)
  | [] => []
  | (k, f) :: rest => (k, ⟨allIds, f allIds⟩) :: setupAssistantsPhase allIds rest

/-- `setup_all`: phase 1 over the skills, then phase 2 over the assistants
with the complete map; returns (skill results, assistant results,
`all_tool_ids`). -/
def setup_all
    (skills : List (String × Outcome (List (String × String))))
    (assistants : List (String × (List (String × String) → Outcome String))) :
    List (String × Outcome (List (String × String))) ×
      List (String × AsstEntry) × List (String × String) :=
  ((setupSkillsPhase skills []).1,
   setupAssistantsPhase (setupSkillsPhase skills []).2 assistants,
   (setupSkillsPhase skills []).2)

/-- Phase 1 reports exactly the registered skill keys, in order, whatever
mix of successes and failures occurred. -/
theorem setupSkillsPhase_keys (skills : List (String × Outcome (List (String × String)))) :
    ∀ acc, (setupSkillsPhase skills acc).1.map Prod.fst = skills.map Prod.fst := by
  induction skills with
  | nil => intro acc; rfl
  | cons p rest ih =>
    intro acc
    cases p with
    | mk k o =>
      cases o with
      | ok m => simp [setupSkillsPhase, ih]
      | err e => simp [setupSkillsPhase, ih]

/-- Every registered skill appears in the phase-1 report with its own
outcome (a failure is recorded and the loop keeps going). -/
theorem setupSkillsPhase_mem (skills : List (String × Outcome (List (String × String)))) :
    ∀ acc p, p ∈ skills → p ∈ (setupSkillsPhase skills acc).1 := by
  induction skills with
  | nil => intro acc p h; cases h
  | cons q rest ih =>
    intro acc p h
    rcases List.mem_cons.mp h with h1 | h2
    · subst h1
      cases p with
      | mk k o =>
        cases o with
        | ok m => exact List.mem_cons_self _ _
        | err e => exact List.mem_cons_self _ _
    · cases q with
      | mk k o =>
        cases o with
        | ok m => exact List.mem_cons_of_mem _ (ih _ p h2)
        | err e => exact List.mem_cons_of_mem _ (ih _ p h2)

/-- The accumulated map only ever grows (by prepended entries). -/
theorem setupSkillsPhase_acc_extends
    (skills : List (String × Outcome (List (String × String)))) :
    ∀ acc, ∃ pre, (setupSkillsPhase skills acc).2 = pre ++ acc := by
  induction skills with
  | nil => intro acc; exact ⟨[], rfl⟩
  | cons q rest ih =>
    intro acc
    cases q with
    | mk k o =>
      cases o with
      | ok m =>
        obtain ⟨pre, hp⟩ := ih (m ++ acc)
        exact ⟨pre ++ m, by simp [setupSkillsPhase, hp]⟩
      | err e =>
        obtain ⟨pre, hp⟩ := ih acc
        exact ⟨pre, by simp [setupSkillsPhase, hp]⟩

/-- A key bound in an association list is still bound after entries are
prepended. -/
theorem lookup_isSome_of_mem (n : String) (t : String) :
    ∀ m : List (String × String), (n, t) ∈ m → (List.lookup n m).isSome = true := by
  intro m
  induction m with
  | nil => intro h; cases h
  | cons x xs ih =>
    intro h
    cases x with
    | mk k v =>
      by_cases hk : n = k
      · subst hk
        simp [List.lookup]
      · have hbeq : (n == k) = false := by simp [hk]
        rcases List.mem_cons.mp h with h1 | h2
        · injection h1 with ha hb
          exact absurd ha hk
        · simp only [List.lookup, hbeq]
          exact ih h2

/-- Every tool of every successfully set-up skill is bound in the final
accumulated `all_tool_ids` map. -/
theorem setupSkillsPhase_covers
    (skills : List (String × Outcome (List (String × String)))) :
    ∀ acc k m n t, (k, Outcome.ok m) ∈ skills → (n, t) ∈ m →
      (List.lookup n (setupSkillsPhase skills acc).2).isSome = true := by
  induction skills with
  | nil => intro acc k m n t h; cases h
  | cons q rest ih =>
    intro acc k m n t hmem hnt
    rcases List.mem_cons.mp hmem with h1 | h2
    · rw [← h1]
      show (List.lookup n (setupSkillsPhase rest (m ++ acc)).2).isSome = true
      obtain ⟨pre, hp⟩ := setupSkillsPhase_acc_extends rest (m ++ acc)
      rw [hp, lookup_append]
      cases hc : List.lookup n pre with
      | some v => simp [Option.orElse]
      | none =>
        rw [lookup_append]
        have hm := lookup_isSome_of_mem n t m hnt
        cases hc2 : List.lookup n m with
        | some v => simp [Option.orElse]
        | none => rw [hc2] at hm; cases hm
    · cases q with
      | mk k' o =>
        cases o with
        | ok m' => exact ih (m' ++ acc) k m n t h2 hnt
        | err e => exact ih acc k m n t h2 hnt

/-- Phase 2 reports exactly the registered assistant keys. -/
theorem setupAssistantsPhase_keys (allIds : List (String × String)) :
    ∀ assistants, (setupAssistantsPhase allIds assistants).map Prod.fst =
      assistants.map Prod.fst := by
  intro assistants
  induction assistants with
  | nil => rfl
  | cons q rest ih =>
    cases q with
    | mk k f => simp [setupAssistantsPhase, ih]

/-- Every registered assistant gets an entry recording the map it was
passed and the outcome of its own setup on that map. -/
theorem setupAssistantsPhase_mem (allIds : List (String × String)) :
    ∀ assistants (k : String) (f : List (String × String) → Outcome String),
      (k, f) ∈ assistants →
      (k, AsstEntry.mk allIds (f allIds)) ∈ setupAssistantsPhase allIds assistants := by
  intro assistants
  induction assistants with
  | nil => intro k f h; cases h
  | cons q rest ih =>
    intro k f h
    rcases List.mem_cons.mp h with h1 | h2
    · cases q with
      | mk k' f' =>
        injection h1 with ha hb
        subst ha
        subst hb
        exact List.mem_cons_self _ _
    · cases q with
      | mk k' f' => exact List.mem_cons_of_mem _ (ih k f h2)

/-- Every phase-2 entry was passed the same single map. -/
theorem setupAssistantsPhase_passed (allIds : List (String × String)) :
    ∀ assistants q, q ∈ setupAssistantsPhase allIds assistants →
      q.2.passed = allIds := by
  intro assistants
  induction assistants with
  | nil => intro q h; cases h
  | cons p rest ih =>
    intro q h
    cases p with
    | mk k f =>
      rcases List.mem_cons.mp h with h1 | h2
      · rw [h1]
      · exact ih q h2

/-- C7: `setup_all` records every registered skill and assistant per key —
the phase loops never abort on a raising member, a failure is recorded as
that key's own error outcome — and phase 2 passes every registered
assistant the one complete `all_tool_ids` map accumulated across all
successfully set-up skills, which binds every tool name of every successful
skill regardless of which skill owns it. -/
theorem setup_all_spec :
    ∀ (skills : List (String × Outcome (List (String × String))))
      (assistants : List (String × (List (String × String) → Outcome String))),
      ((setup_all skills assistants).1.map Prod.fst = skills.map Prod.fst) ∧
      ((setup_all skills assistants).2.1.map Prod.fst = assistants.map Prod.fst) ∧
      (∀ p ∈ skills, p ∈ (setup_all skills assistants).1) ∧
      (∀ (k : String) (f : List (String × String) → Outcome String),
        (k, f) ∈ assistants →
        (k, AsstEntry.mk (setup_all skills assistants).2.2
          (f (setup_all skills assistants).2.2)) ∈ (setup_all skills assistants).2.1) ∧
      (∀ q ∈ (setup_all skills assistants).2.1,
        q.2.passed = (setup_all skills assistants).2.2) ∧
      (∀ (k : String) (m : List (String × String)) (n t : String),
        (k, Outcome.ok m) ∈ skills → (n, t) ∈ m →
        (List.lookup n (setup_all skills assistants).2.2).isSome = true) := by
  intro skills assistants
  refine ⟨setupSkillsPhase_keys skills [], setupAssistantsPhase_keys _ assistants,
    fun p hp => setupSkillsPhase_mem skills [] p hp,
    fun k f hf => setupAssistantsPhase_mem _ assistants k f hf,
    fun q hq => setupAssistantsPhase_passed _ assistants q hq,
    fun k m n t hk hnt => setupSkillsPhase_covers skills [] k m n t hk hnt⟩

/-- Closed witness for C7: a failing skill between two succeeding ones is
recorded per key, the later skill's tool still reaches the complete map,
and the (single) assistant entry records exactly that complete map. -/
theorem setup_all_spec_witness :
    (("bad", Outcome.err "boom") ∈
      (setup_all
        [("auth", Outcome.ok [("authenticate_caller", "t1")]),
         ("bad", Outcome.err "boom"),
         ("site", Outcome.ok [("save_update", "t2")])]
        [("jill", fun _ => Outcome.ok "asst-1")]).1) ∧
    ((List.lookup "save_update"
      (setup_all
        [("auth", Outcome.ok [("authenticate_caller", "t1")]),
         ("bad", Outcome.err "boom"),
         ("site", Outcome.ok [("save_update", "t2")])]
        [("jill", fun _ => Outcome.ok "asst-1")]).2.2).isSome = true) ∧
    (("jill", AsstEntry.mk
        (setup_all
          [("auth", Outcome.ok [("authenticate_caller", "t1")]),
           ("bad", Outcome.err "boom"),
           ("site", Outcome.ok [("save_update", "t2")])]
          [("jill", fun _ => Outcome.ok "asst-1")]).2.2
        (Outcome.ok "asst-1")) ∈
      (setup_all
        [("auth", Outcome.ok [("authenticate_caller", "t1")]),
         ("bad", Outcome.err "boom"),
         ("site", Outcome.ok [("save_update", "t2")])]
        [("jill", fun _ => Outcome.ok "asst-1")]).2.1) :=
  ⟨(setup_all_spec _ _).2.2.1 _ (by decide),
   (setup_all_spec _ _).2.2.2.2.2 "site" [("save_update", "t2")] "save_update" "t2"
     (by decide) (by decide),
   (setup_all_spec _ _).2.2.2.1 "jill" (fun _ => Outcome.ok "asst-1")
     (List.mem_singleton.mpr rfl)⟩

/-- The exception taxonomy relevant to `create_assistant`: the specific
not-supported error (Python `NotImplementedError`, the spec's
`NotSupportedError`) versus any generic exception. -/
inductive SkillError where
  | notSupported (msg : String)
  | generic (msg : String)
deriving DecidableEq

/-- Model of `AuthenticationSkill.create_assistant`
(src/app/skills/authentication/skill.py lines 128-139): unconditionally
raises `NotImplementedError`. -/
def authentication_create_assistant (tool_ids : List (String × String)) :
    Except SkillError String :=
  Except.error (SkillError.notSupported
    ("AuthenticationSkill does not create assistants. " ++
     "It provides tools for assistants to use."))

/-- Model of `SiteUpdatesSkill.create_assistant`
(src/app/skills/site_updates/skill.py lines 140-152): unconditionally
raises `NotImplementedError`. -/
def site_updates_create_assistant (tool_ids : List (String × String)) :
    Except SkillError String :=
  Except.error (SkillError.notSupported
    ("SiteUpdatesSkill does not create assistants. " ++
     "It provides tools for assistants to use. " ++
     "Use an assistant definition (e.g., SiteProgressAssistant) instead."))

/-- C8: invoking `create_assistant` on a skill that cannot stand alone as a
persona raises the specific not-supported error — never returns normally
and never a generic exception — for every tool-id map. -/
theorem create_assistant_not_supported :
    ∀ tool_ids : List (String × String),
      authentication_create_assistant tool_ids =
        Except.error (SkillError.notSupported
          ("AuthenticationSkill does not create assistants. " ++
           "It provides tools for assistants to use.")) ∧
      site_updates_create_assistant tool_ids =
        Except.error (SkillError.notSupported
          ("SiteUpdatesSkill does not create assistants. " ++
           "It provides tools for assistants to use. " ++
           "Use an assistant definition (e.g., SiteProgressAssistant) instead.")) :=
  fun _ => ⟨rfl, rfl⟩

/-- The last element of a list, with a default (Python `xs[-1]`). -/
def lastD (l : List String) (d : String) : String :=
  match l with
  | [] => d
  | [x] => x
  | _ :: xs => lastD xs d

/-- The routing decision computed from the authenticated user's skill list
(src/app/skills/authentication/endpoints.py lines 243-258): greeting plus
flags. -/
structure AuthRouting where
  greeting_message : String
  single_skill_mode : Bool
  skill_count : Nat

/-- The greeting policy (lines 205-216), branching on the number of
available skills exactly as the source does. -/
def greetingFor (first_name : String) (skillNames : List String) : String :=
  if skillNames.length = 0 then
    "Hi " ++ first_name ++ "! I don't have any skills configured for you yet. Please contact support."
  else if skillNames.length = 1 then
    "Hi " ++ first_name ++ "! Ready for " ++ skillNames.getD 0 "Unknown" ++ "? Let's get started."
  else if skillNames.length = 2 then
    "Hi " ++ first_name ++ "! I can help you with " ++ skillNames.getD 0 "" ++
      " or " ++ skillNames.getD 1 "" ++ ". What would you like to do?"
  else
    "Hi " ++ first_name ++ "! I can help you with " ++
      String.intercalate ", " skillNames.dropLast ++ ", or " ++ lastD skillNames "" ++
      ". What would you like to do?"

/-- The routing fields of the authenticate-by-phone success response
(lines 243-258): the greeting and `single_skill_mode = (len == 1)`. -/
def authenticate_routing (first_name : String) (skillNames : List String) : AuthRouting :=
  { greeting_message := greetingFor first_name skillNames
    single_skill_mode := skillNames.length == 1
    skill_count := skillNames.length }

/-- C9: the routing decision is a pure function of the skill list: zero
skills give the terminal contact-support greeting; `single_skill_mode` is
true exactly when there is one skill; two skills are listed as "X or Y";
three or more as a comma-separated list with a final "or". -/
theorem authenticate_routing_spec :
    ∀ (fn : String) (skills : List String),
      ((authenticate_routing fn skills).single_skill_mode = true ↔ skills.length = 1) ∧
      (skills = [] → (authenticate_routing fn skills).greeting_message =
        "Hi " ++ fn ++ "! I don't have any skills configured for you yet. Please contact support.") ∧
      (∀ a b, skills = [a, b] → (authenticate_routing fn skills).greeting_message =
        "Hi " ++ fn ++ "! I can help you with " ++ a ++ " or " ++ b ++
          ". What would you like to do?") ∧
      (∀ a b c rest, skills = a :: b :: c :: rest →
        (authenticate_routing fn skills).greeting_message =
          "Hi " ++ fn ++ "! I can help you with " ++
            String.intercalate ", " (skills.dropLast) ++ ", or " ++ lastD skills "" ++
            ". What would you like to do?") := by
  intro fn skills
  refine ⟨?_, ?_, ?_, ?_⟩
  · simp [authenticate_routing]
  · intro h
    subst h
    rfl
  · intro a b h
    subst h
    rfl
  · intro a b c rest h
    subst h
    simp [authenticate_routing, greetingFor]

/-- Closed witness for C9: concrete skill lists of sizes 0, 2 and 3. -/
theorem authenticate_routing_spec_witness :
    (authenticate_routing "Kevin" []).greeting_message =
      "Hi " ++ "Kevin" ++ "! I don't have any skills configured for you yet. Please contact support." ∧
    (authenticate_routing "Kevin" ["Voice Notes", "Site Updates"]).greeting_message =
      "Hi " ++ "Kevin" ++ "! I can help you with " ++ "Voice Notes" ++ " or " ++
        "Site Updates" ++ ". What would you like to do?" ∧
    (authenticate_routing "Kevin" ["Voice Notes", "Site Updates", "Summaries"]).greeting_message =
      "Hi " ++ "Kevin" ++ "! I can help you with " ++
        String.intercalate ", " (["Voice Notes", "Site Updates", "Summaries"].dropLast) ++
        ", or " ++ lastD ["Voice Notes", "Site Updates", "Summaries"] "" ++
        ". What would you like to do?" :=
  ⟨(authenticate_routing_spec "Kevin" []).2.1 rfl,
   (authenticate_routing_spec "Kevin" ["Voice Notes", "Site Updates"]).2.2.1
     "Voice Notes" "Site Updates" rfl,
   (authenticate_routing_spec "Kevin" ["Voice Notes", "Site Updates", "Summaries"]).2.2.2
     "Voice Notes" "Site Updates" "Summaries" [] rfl⟩
